import Mathlib

/-!
# Axium AI — verification of the specified core

Shallow embedding of the quota-gated generation workflow of the Axium AI
repository: the Response Normalizer (`cleanJson`), the Quota Ledger
(`creditGateBlocks`, `handleConsumeCredit`), the Audio Container Builder
(`pcmToWav`), the Generation Façade entry checks, and the Persistence
Façade's authentication behaviour.  Each definition is translated from the
TypeScript source file it names; remote services (model API, relational
store) are passed in as explicit outcome parameters.
-/

namespace Axium

/-! ## JavaScript string primitives

The source manipulates JS strings with `trim`, `replace` on anchored
regexes, `indexOf` / `lastIndexOf`, and `substring`.  We model strings as
`List Char` internally.  -/

/-- The character class of JavaScript `\s` (and of `String.prototype.trim`):
tab, LF, VT, FF, CR, space, NBSP, the Unicode space separators, LS, PS,
narrow no-break space, medium mathematical space, ideographic space and the
byte-order mark. -/
def isJsWs (c : Char) : Bool :=
  c.toNat = 9 || c.toNat = 10 || c.toNat = 11 || c.toNat = 12 || c.toNat = 13 ||
  c.toNat = 32 || c.toNat = 160 || c.toNat = 5760 ||
  (8192 ≤ c.toNat && c.toNat ≤ 8202) || c.toNat = 8232 || c.toNat = 8233 ||
  c.toNat = 8239 || c.toNat = 8287 || c.toNat = 12288 || c.toNat = 65279

/-- JavaScript `String.prototype.trim`: drop `\s` characters from both ends. -/
def jsTrim (l : List Char) : List Char :=
  ((l.dropWhile isJsWs).reverse.dropWhile isJsWs).reverse

/-- JavaScript `indexOf` for a single character, as an `Option` (the source
compares the result with `-1`): index of the first character satisfying `p`. -/
def firstIdx (p : Char → Bool) : List Char → Option Nat
  | [] => none
  | c :: cs => if p c then some 0 else (firstIdx p cs).map (fun i => i + 1)

/-- JavaScript `lastIndexOf` for a single character: index of the last
character satisfying `p`. -/
def lastIdx (p : Char → Bool) (l : List Char) : Option Nat :=
  (firstIdx p l.reverse).map (fun i => l.length - 1 - i)

/-- JavaScript `String.prototype.substring s a b`: swap the endpoints when
`a > b` and return the slice `[a, b)` (`take` and `drop` clamp to the
length, as `substring` clamps its arguments). -/
def jsSubstring (l : List Char) (a b : Nat) : List Char :=
  if a ≤ b then (l.take b).drop a else (l.take a).drop b

/-- The opening-brace character `{`. -/
def lbrace : Char := Char.ofNat 123

/-- The closing-brace character `}`. -/
def rbrace : Char := Char.ofNat 125

/-! ## Response Normalizer — `cleanJson` (src/services/geminiService.ts 28–38) -/

/-- The code-fence marker with a language tag, `` ```json ``. -/
def fenceJson : List Char := "```json".toList

/-- The bare code-fence marker, `` ``` ``. -/
def fence : List Char := "```".toList

/-- The three chained `replace` calls of `cleanJson`:
`.replace(/^```json\s*/, '').replace(/^```\s*/, '').replace(/```$/, '')`.
An anchored `^…\s*` regex removes the literal prefix and the greedy run of
whitespace after it when the prefix is present; `/```$/` (non-global)
removes the final three characters when they are backticks. -/
def stripFences (l : List Char) : List Char :=
  let l1 := if fenceJson.isPrefixOf l then (l.drop 7).dropWhile isJsWs else l
  let l2 := if fence.isPrefixOf l1 then (l1.drop 3).dropWhile isJsWs else l1
  if fence.isSuffixOf l2 then l2.take (l2.length - 3) else l2

/-- `cleanJson` (src/services/geminiService.ts 28–38): `if (!text) return "{}"`,
then trim, strip fences, and when both `indexOf('{')` and `lastIndexOf('}')`
succeed, `substring(firstBrace, lastBrace + 1)`. -/
def cleanJson (text : String) : String :=
  if text = "" then "\x7b\x7d"
  else
    let cleaned := stripFences (jsTrim text.toList)
    match firstIdx (fun c => c == lbrace) cleaned, lastIdx (fun c => c == rbrace) cleaned with
    | some f, some l => String.mk (jsSubstring cleaned f (l + 1))
    | _, _ => String.mk cleaned

/-- Modelled from the spec's words (§4.1 step 3), for comparison with
`cleanJson`: "locate the first `\x7b` and the last `\x7d` in the remaining text
and slice between them inclusive" — the characters from the first `\x7b` up to
and including the last `\x7d` of the trimmed, fence-stripped text, when both
occur. -/
def specBraceSlice (text : String) : Option String :=
  let t := stripFences (jsTrim text.toList)
  match firstIdx (fun c => c == lbrace) t, lastIdx (fun c => c == rbrace) t with
  | some f, some l => some (String.mk ((t.take (l + 1)).drop f))
  | _, _ => none

/-! ## Data model (src/types.ts) -/

/-- `plan: 'free' | 'pro'` of `UserProfile` (src/types.ts 107). -/
inductive Plan
  | free
  | pro
  deriving DecidableEq, Repr

/-- `UserProfile` (src/types.ts 104–109).  `credits: number` holds integral
credit counts; it is modelled as `Int`. -/
structure UserProfile where
  id : String
  email : String
  plan : Plan
  credits : Int
  deriving DecidableEq, Repr

/-- `role: 'user' | 'model'` of `Message` (src/types.ts 23). -/
inductive Role
  | user
  | model
  deriving DecidableEq, Repr

/-- `GroundingSource` (src/types.ts 16–19). -/
structure GroundingSource where
  title : String
  uri : String
  deriving DecidableEq, Repr

/-- `Message` (src/types.ts 21–27); `timestamp: number` is epoch milliseconds,
modelled as `Int`; `sources?` is an optional list. -/
structure Message where
  id : String
  role : Role
  content : String
  timestamp : Int
  sources : Option (List GroundingSource)
  deriving DecidableEq, Repr

/-- `ChatSession` (src/types.ts 30–36). -/
structure ChatSession where
  id : String
  user_id : String
  title : String
  messages : List Message
  created_at : String
  deriving DecidableEq, Repr

/-- `GeneratedImage` (src/types.ts 39–44). -/
structure GeneratedImage where
  id : String
  url : String
  prompt : String
  timestamp : Int
  deriving DecidableEq, Repr

/-- `SavedSite` (src/types.ts 47–54). -/
structure SavedSite where
  id : Option String
  html : String
  css : String
  js : String
  title : String
  created_at : Option Int
  deriving DecidableEq, Repr

/-! ## Quota Ledger — credit gate and consume (src/App.tsx)

Every tool handler in src/App.tsx opens with the same two checks: an input
validation (`if (!input.trim()) return`) and the credit gate
`if (profile && profile.plan === 'free' && profile.credits <= 0)
\x7b onLimitReached(); return; \x7d`.  We model the part of each handler that
runs before the remote model is invoked as a three-way outcome.  -/

/-- What a tool's send/generate handler does before any remote call:
return early on invalid input, signal the paywall, or go on to invoke the
remote model. -/
inductive HandlerStep
  | rejectedInput
  | paywall
  | modelCall
  deriving DecidableEq, Repr

/-- The credit gate condition shared by every handler
(`profile && profile.plan === 'free' && profile.credits <= 0`). -/
def creditGateBlocks (profile : Option UserProfile) : Bool :=
  match profile with
  | none => false
  | some p => p.plan == Plan.free && p.credits ≤ 0

/-- `ChatTool.handleSend` up to the remote call (src/App.tsx 681–689):
`textToSend = textOverride || input`; empty trimmed text returns early;
then the credit gate. -/
def chatHandleSend (profile : Option UserProfile) (textOverride : Option String)
    (input : String) : HandlerStep :=
  let textToSend :=
    match textOverride with
    | some t => if t = "" then input else t
    | none => input
  if String.mk (jsTrim textToSend.toList) = "" then .rejectedInput
  else if creditGateBlocks profile then .paywall
  else .modelCall

/-- `ImageTool.handleGenerate` up to the remote call (src/App.tsx 1002–1008). -/
def imageHandleGenerate (profile : Option UserProfile) (prompt : String) : HandlerStep :=
  if String.mk (jsTrim prompt.toList) = "" then .rejectedInput
  else if creditGateBlocks profile then .paywall
  else .modelCall

/-- `AudioTool.handleGenerate` up to the remote call (src/App.tsx 1124–1130). -/
def audioHandleGenerate (profile : Option UserProfile) (text : String) : HandlerStep :=
  if String.mk (jsTrim text.toList) = "" then .rejectedInput
  else if creditGateBlocks profile then .paywall
  else .modelCall

/-- `CoderTool.handleCodeUpdate` up to the remote call (src/App.tsx 1319–1325). -/
def coderHandleCodeUpdate (profile : Option UserProfile) (chatInput : String) : HandlerStep :=
  if String.mk (jsTrim chatInput.toList) = "" then .rejectedInput
  else if creditGateBlocks profile then .paywall
  else .modelCall

/-- `SocialDesignTool.handleGenerate` up to the remote call
(src/App.tsx 1591–1597); note the validation is `if(!topic)` — falsiness,
without `trim`. -/
def socialHandleGenerate (profile : Option UserProfile) (topic : String) : HandlerStep :=
  if topic = "" then .rejectedInput
  else if creditGateBlocks profile then .paywall
  else .modelCall

/-- `SimpleGenTool.handleSend` up to the remote call (src/App.tsx 1738–1744). -/
def simpleGenHandleSend (profile : Option UserProfile) (input : String) : HandlerStep :=
  if String.mk (jsTrim input.toList) = "" then .rejectedInput
  else if creditGateBlocks profile then .paywall
  else .modelCall

/-- `App.handleConsumeCredit` (src/App.tsx 1849–1859).  The durable RPC
`Supabase.consumeCredit()` is awaited first; `rpcOk` tells whether it
resolved.  Only on success, and only for a cached free-plan profile, the
local counter becomes `Math.max(0, credits - 1)`; a rejection is caught and
logged, leaving the cached profile untouched. -/
def handleConsumeCredit (rpcOk : Bool) (userProfile : Option UserProfile) :
    Option UserProfile :=
  if rpcOk then
    match userProfile with
    | some p =>
        if p.plan = Plan.free then some { p with credits := max 0 (p.credits - 1) }
        else some p
    | none => none
  else userProfile

/-! ## Audio Container Builder — `pcmToWav` (src/services/geminiService.ts 59–91)

`atob` decoding of the base64 input is external; the builder is modelled
from the decoded sample bytes on.  `DataView.setUint8/16/32` store values
wrapped to the field width, little-endian.  -/

/-- The two little-endian bytes stored by `setUint16(…, v, true)`. -/
def le16 (v : Nat) : List Nat := [v % 256, v / 256 % 256]

/-- The four little-endian bytes stored by `setUint32(…, v, true)`. -/
def le32 (v : Nat) : List Nat :=
  [v % 256, v / 256 % 256, v / 65536 % 256, v / 16777216 % 256]

/-- `writeString` (src/services/geminiService.ts 53–57): one `setUint8` per
character code. -/
def writeStringBytes (s : String) : List Nat := s.toList.map (fun c => c.toNat % 256)

/-- `pcmToWav` (src/services/geminiService.ts 59–91) as the byte sequence of
the produced `ArrayBuffer`: each `++` component is the write at the offset
the source names — "RIFF" at 0, `36 + len` at 4, "WAVE" at 8, "fmt " at 12,
16 at 16, 1 at 20, 1 at 22, `sampleRate` at 24, `sampleRate * 2` at 28,
2 at 32, 16 at 34, "data" at 36, `len` at 40, then the sample bytes from 44.
The writes are disjoint and cover the whole 44-byte header. -/
def pcmToWav (pcm : List Nat) (sampleRate : Nat) : List Nat :=
  writeStringBytes "RIFF" ++ le32 (36 + pcm.length) ++ writeStringBytes "WAVE" ++
  writeStringBytes "fmt " ++ le32 16 ++ le16 1 ++ le16 1 ++ le32 sampleRate ++
  le32 (sampleRate * 2) ++ le16 2 ++ le16 16 ++ writeStringBytes "data" ++
  le32 pcm.length ++ pcm

/-- Little-endian 16-bit read of a byte list at offset `i` (to state header
properties). -/
def readLE16 (l : List Nat) (i : Nat) : Nat :=
  match l.drop i with
  | b0 :: b1 :: _ => b0 + 256 * b1
  | _ => 0

/-- Little-endian 32-bit read of a byte list at offset `i`. -/
def readLE32 (l : List Nat) (i : Nat) : Nat :=
  match l.drop i with
  | b0 :: b1 :: b2 :: b3 :: _ => b0 + 256 * b1 + 65536 * b2 + 16777216 * b3
  | _ => 0

/-! ## Generation Façade — credential check (src/services/geminiService.ts)

`const apiKey = process.env.API_KEY || ''` and `checkApiKey` throws exactly
when `apiKey` is falsy, i.e. the empty string.  Each entry point is modelled
by what it does before any network call: raise the configuration error or
proceed to the provider request.  -/

/-- `process.env.API_KEY || ''` (src/services/geminiService.ts 5): an absent
credential becomes the empty string. -/
def apiKeyOfEnv (env : Option String) : String := env.getD ""

/-- What a Generation Façade entry point does first: throw the configuration
error from `checkApiKey`, or proceed to build and send the provider request. -/
inductive FacadeStart
  | configError
  | proceeds
  deriving DecidableEq, Repr

/-- `generateTextChat` starts with `checkApiKey()` (src/services/geminiService.ts 96). -/
def generateTextChatStart (apiKey : String) : FacadeStart :=
  if apiKey = "" then .configError else .proceeds

/-- `generateChatTitle` starts with `checkApiKey()` (src/services/geminiService.ts 130). -/
def generateChatTitleStart (apiKey : String) : FacadeStart :=
  if apiKey = "" then .configError else .proceeds

/-- `generateImage` (src/services/geminiService.ts 143–159) never calls
`checkApiKey`: it fetches from the keyless Pollinations provider for every
credential state. -/
def generateImageStart (_apiKey : String) : FacadeStart := .proceeds

/-- `generateAudio` starts with `checkApiKey()` (src/services/geminiService.ts 162). -/
def generateAudioStart (apiKey : String) : FacadeStart :=
  if apiKey = "" then .configError else .proceeds

/-- `generateCode` starts with `checkApiKey()` (src/services/geminiService.ts 187). -/
def generateCodeStart (apiKey : String) : FacadeStart :=
  if apiKey = "" then .configError else .proceeds

/-- `generateStructuredData` starts with `checkApiKey()` (src/services/geminiService.ts 229). -/
def generateStructuredDataStart (apiKey : String) : FacadeStart :=
  if apiKey = "" then .configError else .proceeds

/-- `generateText` starts with `checkApiKey()` (src/services/geminiService.ts 251). -/
def generateTextStart (apiKey : String) : FacadeStart :=
  if apiKey = "" then .configError else .proceeds

/-- `generateSocialPost` starts with `checkApiKey()`
(src/services/geminiService.ts 265) and then delegates to
`generateStructuredData`, which checks again. -/
def generateSocialPostStart (apiKey : String) : FacadeStart :=
  if apiKey = "" then .configError else generateStructuredDataStart apiKey

/-! ## `generateChatTitle` result shaping (src/services/geminiService.ts 129–140) -/

/-- The outcome of the remote `generateContent` call inside
`generateChatTitle`: the promise rejects, or resolves with `response.text`
(possibly `undefined`). -/
inductive RemoteTitle
  | throws
  | returns (text : Option String)
  deriving DecidableEq, Repr

/-- `generateChatTitle` (src/services/geminiService.ts 129–140): it first
calls `checkApiKey()` **outside** the `try` block, so with the credential
absent the configuration error (`"Chave de API não encontrada. Verifique
suas variáveis de ambiente."`, line 10) propagates to the caller.  Inside
the `try`, `return response.text?.trim() || "Novo Chat"`, with a bare
`catch` returning `"Novo Chat"`: an absent text, a text trimming to the
empty (falsy) string, and a rejected remote call all fall back to
`"Novo Chat"`. -/
def generateChatTitle (apiKey : String) (outcome : RemoteTitle) :
    Except String String :=
  if apiKey = "" then
    Except.error "Chave de API não encontrada. Verifique suas variáveis de ambiente."
  else
    Except.ok (match outcome with
      | .throws => "Novo Chat"
      | .returns none => "Novo Chat"
      | .returns (some t) =>
          let trimmed := String.mk (jsTrim t.toList)
          if trimmed = "" then "Novo Chat" else trimmed)

/-! ## Persistence Façade (src/services/supabaseService.ts)

Each operation first resolves `supabase.auth.getUser()`; `user` is the
resolved user id (or `none` without a session).  The external store's
response to the query the authenticated path issues is passed in as an
`Except`: `.error` models `if (error) throw error`. -/

/-- A `profiles`/`images` row as returned by the store; `created_at` is
modelled as epoch milliseconds (the source converts with
`new Date(img.created_at).getTime()`). -/
structure ImageRow where
  id : String
  url : String
  prompt : String
  created_at : Int
  deriving DecidableEq, Repr

/-- `getChats` (src/services/supabaseService.ts 94–106): no user → `[]`;
otherwise the store's rows, or its error rethrown. -/
def getChats (user : Option String) (remote : Except String (List ChatSession)) :
    Except String (List ChatSession) :=
  match user with
  | none => .ok []
  | some _ => remote

/-- `createChat` (src/services/supabaseService.ts 108–120): no user →
`throw new Error("Usuário não autenticado.")`; otherwise the inserted row or
the store's error. -/
def createChat (user : Option String) (title : String)
    (remote : Except String ChatSession) : Except String ChatSession :=
  match user, title with
  | none, _ => .error "Usuário não autenticado."
  | some _, _ => remote

/-- `getImages` (src/services/supabaseService.ts 140–157): no user → `[]`;
otherwise the rows mapped into `GeneratedImage` shape. -/
def getImages (user : Option String) (remote : Except String (List ImageRow)) :
    Except String (List GeneratedImage) :=
  match user with
  | none => .ok []
  | some _ =>
      remote.map (fun rows => rows.map (fun img =>
        { id := img.id, url := img.url, prompt := img.prompt,
          timestamp := img.created_at }))

/-- `saveImage` (src/services/supabaseService.ts 159–168): no user → a bare
`return` — the insert is never issued and no error is raised; otherwise the
insert's outcome. -/
def saveImage (user : Option String) (remote : Except String Unit) :
    Except String Unit :=
  match user with
  | none => .ok ()
  | some _ => remote

/-- `getSites` (src/services/supabaseService.ts 171–183): no user → `[]`. -/
def getSites (user : Option String) (remote : Except String (List SavedSite)) :
    Except String (List SavedSite) :=
  match user with
  | none => .ok []
  | some _ => remote

/-- `saveSite` (src/services/supabaseService.ts 185–194): no user → a bare
`return`, like `saveImage`. -/
def saveSite (user : Option String) (remote : Except String Unit) :
    Except String Unit :=
  match user with
  | none => .ok ()
  | some _ => remote

/-! ## Theorems -/

/-- C7, counterexample: without a resolved user, `saveImage` and `saveSite`
silently succeed (bare `return`) even when the store would reject the
insert — they do not fail with an "unauthenticated" error as the claim
states. -/
theorem persistence_unauth_write_cex :
    saveImage none (Except.error "db down") = Except.ok () ∧
    saveSite none (Except.error "db down") = Except.ok () :=
  ⟨rfl, rfl⟩

/-- C7, amended: without a resolved authenticated user, the read operations
`getChats`, `getImages`, `getSites` return an empty collection; `createChat`
fails with the unauthenticated error `"Usuário não autenticado."`; but
`saveImage` and `saveSite` return silently without issuing the write. -/
theorem persistence_unauthenticated_behaviour (title : String)
    (rc : Except String ChatSession) (rl : Except String (List ChatSession))
    (ri : Except String (List ImageRow)) (rs : Except String (List SavedSite))
    (ru rv : Except String Unit) :
    getChats none rl = Except.ok [] ∧
    getImages none ri = Except.ok [] ∧
    getSites none rs = Except.ok [] ∧
    createChat none title rc = Except.error "Usuário não autenticado." ∧
    saveImage none ru = Except.ok () ∧
    saveSite none rv = Except.ok () :=
  ⟨rfl, rfl, rfl, rfl, rfl, rfl⟩

/-- C8, counterexample: with the credential absent (`apiKey = ""`),
`generateImage` does not fail fast with a configuration error — it proceeds
straight to the network fetch of the keyless image provider. -/
theorem generateImage_no_key_check_cex :
    generateImageStart (apiKeyOfEnv none) = FacadeStart.proceeds ∧
    FacadeStart.proceeds ≠ FacadeStart.configError := by
  decide

/-- C8, amended: when the model API credential is absent from the
environment, every Generation Façade entry point except `generateImage`
(chat, title, audio, code, structured data, free text, social post) fails
fast with the configuration error before any network call; `generateImage`
uses a keyless provider and proceeds regardless. -/
theorem facade_key_check :
    apiKeyOfEnv none = "" ∧
    generateTextChatStart (apiKeyOfEnv none) = FacadeStart.configError ∧
    generateChatTitleStart (apiKeyOfEnv none) = FacadeStart.configError ∧
    generateAudioStart (apiKeyOfEnv none) = FacadeStart.configError ∧
    generateCodeStart (apiKeyOfEnv none) = FacadeStart.configError ∧
    generateStructuredDataStart (apiKeyOfEnv none) = FacadeStart.configError ∧
    generateTextStart (apiKeyOfEnv none) = FacadeStart.configError ∧
    generateSocialPostStart (apiKeyOfEnv none) = FacadeStart.configError ∧
    generateImageStart (apiKeyOfEnv none) = FacadeStart.proceeds := by
  decide

/-- C10, counterexample: the claim fails on two error paths.  With the
credential absent, `generateChatTitle` propagates the configuration error
thrown by `checkApiKey()` outside the `try` block instead of returning a
title.  And with the credential present, a model text of one space
(non-empty) yields the fallback `"Novo Chat"`, not the trimmed text `""` —
the `|| "Novo Chat"` fallback also fires on a falsy trimmed string. -/
theorem chatTitle_whitespace_cex :
    generateChatTitle "" (RemoteTitle.returns (some "Um título")) =
      Except.error "Chave de API não encontrada. Verifique suas variáveis de ambiente." ∧
    generateChatTitle "k" (RemoteTitle.returns (some " ")) = Except.ok "Novo Chat" ∧
    String.mk (jsTrim " ".toList) = "" ∧
    ("Novo Chat" : String) ≠ String.mk (jsTrim " ".toList) := by
  refine ⟨rfl, rfl, rfl, ?_⟩
  decide

/-- C10, amended: with the API credential configured, `generateChatTitle`
never propagates an error — when the remote call throws, the text is
absent, or the text trims to the empty string, it returns `"Novo Chat"`,
and otherwise the text trimmed of surrounding whitespace; with the
credential absent, the `checkApiKey()` call before the `try` block throws
the configuration error, which the function propagates to its caller. -/
theorem chatTitle_fallback (apiKey t : String) (hk : apiKey ≠ "") :
    generateChatTitle apiKey RemoteTitle.throws = Except.ok "Novo Chat" ∧
    generateChatTitle apiKey (RemoteTitle.returns none) = Except.ok "Novo Chat" ∧
    (String.mk (jsTrim t.toList) = "" →
      generateChatTitle apiKey (RemoteTitle.returns (some t)) =
        Except.ok "Novo Chat") ∧
    (String.mk (jsTrim t.toList) ≠ "" →
      generateChatTitle apiKey (RemoteTitle.returns (some t)) =
        Except.ok (String.mk (jsTrim t.toList))) ∧
    (∀ o : RemoteTitle, generateChatTitle "" o =
      Except.error
        "Chave de API não encontrada. Verifique suas variáveis de ambiente.") := by
  refine ⟨?_, ?_, fun h => ?_, fun h => ?_, fun o => ?_⟩
  · simp only [generateChatTitle]
    rw [if_neg hk]
  · simp only [generateChatTitle]
    rw [if_neg hk]
  · simp only [generateChatTitle]
    rw [if_neg hk]
    show Except.ok (if String.mk (jsTrim t.toList) = "" then "Novo Chat"
        else String.mk (jsTrim t.toList)) = Except.ok "Novo Chat"
    rw [if_pos h]
  · simp only [generateChatTitle]
    rw [if_neg hk]
    show Except.ok (if String.mk (jsTrim t.toList) = "" then "Novo Chat"
        else String.mk (jsTrim t.toList)) = Except.ok (String.mk (jsTrim t.toList))
    rw [if_neg h]
  · simp [generateChatTitle]

/-- C10, witness: `chatTitle_fallback` with a configured credential at the
text `"  Plano de viagem  "`, whose trimmed value is non-empty. -/
theorem chatTitle_fallback_witness :
    generateChatTitle "k" (RemoteTitle.returns (some "  Plano de viagem  ")) =
      Except.ok (String.mk (jsTrim "  Plano de viagem  ".toList)) :=
  (chatTitle_fallback "k" "  Plano de viagem  " (by decide)).2.2.2.1 (by decide)

/-- C9, counterexample: when the durable decrement fails (`rpcOk = false`),
the cached profile keeps its 5 credits — the local counter is **not**
decremented, contradicting the claim that the local decrement happens even
when the durable decrement fails. -/
theorem consume_failure_no_local_decrement_cex :
    handleConsumeCredit false (some ⟨"u1", "u@example.com", Plan.free, 5⟩) =
      some ⟨"u1", "u@example.com", Plan.free, 5⟩ ∧
    (5 : Int) ≠ max 0 ((5 : Int) - 1) := by
  decide

/-- C9, amended: `handleConsumeCredit` awaits the durable decrement first;
when it fails the error is only logged and the cached profile is left
unchanged (no local decrement, so nothing to roll back), and when it
succeeds the cached free-plan profile's credits are clamped-decremented
immediately. -/
theorem consume_durable_first (p : UserProfile) :
    handleConsumeCredit false (some p) = some p ∧
    (p.plan = Plan.free →
      handleConsumeCredit true (some p) =
        some { p with credits := max 0 (p.credits - 1) }) := by
  refine ⟨rfl, fun h => ?_⟩
  simp [handleConsumeCredit, h]

/-- C9, witness: `consume_durable_first` at a concrete free profile with 5
credits. -/
theorem consume_durable_first_witness :
    handleConsumeCredit false (some ⟨"u1", "u@example.com", Plan.free, 5⟩) =
      some ⟨"u1", "u@example.com", Plan.free, 5⟩ ∧
    handleConsumeCredit true (some ⟨"u1", "u@example.com", Plan.free, 5⟩) =
      some { (⟨"u1", "u@example.com", Plan.free, 5⟩ : UserProfile) with
             credits := max 0 ((5 : Int) - 1) } :=
  ⟨(consume_durable_first ⟨"u1", "u@example.com", Plan.free, 5⟩).1,
   (consume_durable_first ⟨"u1", "u@example.com", Plan.free, 5⟩).2 rfl⟩

/-- C2: for a free profile with `c ≥ 0` credits, `n` successful consume
operations leave `max 0 (c - n)` credits — the counter never goes below 0 —
and for a pro profile every consume is a local no-op. -/
theorem consume_clamps_at_zero (p : UserProfile) (n : Nat) (hc : 0 ≤ p.credits) :
    (handleConsumeCredit true)^[n] (some p) =
      some { p with credits :=
               if p.plan = Plan.free then max 0 (p.credits - n) else p.credits } := by
  induction n generalizing p with
  | zero =>
      rw [Function.iterate_zero_apply]
      cases p with
      | mk id email plan credits =>
          cases plan with
          | free =>
              simp at hc ⊢
              omega
          | pro => simp
  | succ n ih =>
      rw [Function.iterate_succ_apply]
      cases hp : p.plan with
      | free =>
          have h1 : handleConsumeCredit true (some p) =
              some { p with credits := max 0 (p.credits - 1) } := by
            simp [handleConsumeCredit, hp]
          rw [h1, ih _ (le_max_left _ _)]
          cases p with
          | mk id email plan credits =>
              simp at hp
              subst hp
              simp
              omega
      | pro =>
          have h1 : handleConsumeCredit true (some p) = some p := by
            simp [handleConsumeCredit, hp]
          rw [h1, ih _ hc]
          cases p with
          | mk id email plan credits =>
              simp at hp
              subst hp
              simp

/-- C2, witness: a free profile with 1 credit after 2 consume operations
holds 0 credits (`max 0 (1 - 2) = 0`). -/
theorem consume_clamps_at_zero_witness :
    (handleConsumeCredit true)^[2] (some ⟨"u1", "u@example.com", Plan.free, 1⟩) =
      some ⟨"u1", "u@example.com", Plan.free, 0⟩ :=
  (consume_clamps_at_zero ⟨"u1", "u@example.com", Plan.free, 1⟩ 2 (by decide)).trans
    (by decide)

/-- The shared tail of every gated handler: with valid input, the handler
issues the model call exactly when the credit gate does not block, the gate
blocks exactly for a free plan without credits, and blocking signals the
paywall. -/
lemma gatedStep_spec (p : UserProfile) :
    ((if creditGateBlocks (some p) then HandlerStep.paywall else HandlerStep.modelCall) =
        HandlerStep.modelCall ↔ (p.plan = Plan.pro ∨ 0 < p.credits)) ∧
    (p.plan = Plan.free → p.credits ≤ 0 →
      (if creditGateBlocks (some p) then HandlerStep.paywall else HandlerStep.modelCall) =
        HandlerStep.paywall) := by
  cases hp : p.plan with
  | free =>
      by_cases hc : p.credits ≤ 0
      · have hb : creditGateBlocks (some p) = true := by
          simp [creditGateBlocks, hp, hc]
        rw [hb]
        simp [hp]
        omega
      · have hb : creditGateBlocks (some p) = false := by
          simp [creditGateBlocks, hp, hc]
        rw [hb]
        simp [hp]
        omega
  | pro =>
      have hb : creditGateBlocks (some p) = false := by
        simp [creditGateBlocks, hp]
      rw [hb]
      simp [hp]

/-- C1: for every user profile and every input accepted by the handler's
validation, each of the six tool handlers (chat, image, audio, code, simple
generators, social) invokes the remote model if and only if the plan is pro
or credits are positive, and for a free plan without credits it instead
signals the paywall (`onLimitReached`) and returns. -/
theorem gate_blocks_free_without_credits (p : UserProfile) (s : String)
    (hs : String.mk (jsTrim s.toList) ≠ "") :
    ((chatHandleSend (some p) none s = HandlerStep.modelCall ↔
        (p.plan = Plan.pro ∨ 0 < p.credits)) ∧
     (p.plan = Plan.free → p.credits ≤ 0 →
        chatHandleSend (some p) none s = HandlerStep.paywall)) ∧
    ((imageHandleGenerate (some p) s = HandlerStep.modelCall ↔
        (p.plan = Plan.pro ∨ 0 < p.credits)) ∧
     (p.plan = Plan.free → p.credits ≤ 0 →
        imageHandleGenerate (some p) s = HandlerStep.paywall)) ∧
    ((audioHandleGenerate (some p) s = HandlerStep.modelCall ↔
        (p.plan = Plan.pro ∨ 0 < p.credits)) ∧
     (p.plan = Plan.free → p.credits ≤ 0 →
        audioHandleGenerate (some p) s = HandlerStep.paywall)) ∧
    ((coderHandleCodeUpdate (some p) s = HandlerStep.modelCall ↔
        (p.plan = Plan.pro ∨ 0 < p.credits)) ∧
     (p.plan = Plan.free → p.credits ≤ 0 →
        coderHandleCodeUpdate (some p) s = HandlerStep.paywall)) ∧
    ((simpleGenHandleSend (some p) s = HandlerStep.modelCall ↔
        (p.plan = Plan.pro ∨ 0 < p.credits)) ∧
     (p.plan = Plan.free → p.credits ≤ 0 →
        simpleGenHandleSend (some p) s = HandlerStep.paywall)) ∧
    ((socialHandleGenerate (some p) s = HandlerStep.modelCall ↔
        (p.plan = Plan.pro ∨ 0 < p.credits)) ∧
     (p.plan = Plan.free → p.credits ≤ 0 →
        socialHandleGenerate (some p) s = HandlerStep.paywall)) := by
  have hsne : s ≠ "" := fun h => hs (by subst h; rfl)
  have hg := gatedStep_spec p
  have e1 : chatHandleSend (some p) none s =
      (if creditGateBlocks (some p) then HandlerStep.paywall else HandlerStep.modelCall) := by
    simp only [chatHandleSend]
    rw [if_neg hs]
  have e2 : imageHandleGenerate (some p) s =
      (if creditGateBlocks (some p) then HandlerStep.paywall else HandlerStep.modelCall) := by
    simp only [imageHandleGenerate]
    rw [if_neg hs]
  have e3 : audioHandleGenerate (some p) s =
      (if creditGateBlocks (some p) then HandlerStep.paywall else HandlerStep.modelCall) := by
    simp only [audioHandleGenerate]
    rw [if_neg hs]
  have e4 : coderHandleCodeUpdate (some p) s =
      (if creditGateBlocks (some p) then HandlerStep.paywall else HandlerStep.modelCall) := by
    simp only [coderHandleCodeUpdate]
    rw [if_neg hs]
  have e5 : simpleGenHandleSend (some p) s =
      (if creditGateBlocks (some p) then HandlerStep.paywall else HandlerStep.modelCall) := by
    simp only [simpleGenHandleSend]
    rw [if_neg hs]
  have e6 : socialHandleGenerate (some p) s =
      (if creditGateBlocks (some p) then HandlerStep.paywall else HandlerStep.modelCall) := by
    simp only [socialHandleGenerate]
    rw [if_neg hsne]
  rw [e1, e2, e3, e4, e5, e6]
  exact ⟨hg, hg, hg, hg, hg, hg⟩

/-- C1, witness: a free profile with 0 credits sending the non-empty chat
message `"oi"` hits the paywall. -/
theorem gate_blocks_free_without_credits_witness :
    chatHandleSend (some ⟨"u1", "u@example.com", Plan.free, 0⟩) none "oi" =
      HandlerStep.paywall :=
  ((gate_blocks_free_without_credits ⟨"u1", "u@example.com", Plan.free, 0⟩ "oi"
      (by decide)).1).2 rfl (by decide)

/-- C6: for any decoded PCM payload of `N` bytes and any sample rate `r`
(whose header fields fit their 32-bit slots), the produced container has
exactly `44 + N` bytes; its little-endian fields are total size `N + 36` at
offset 4, subchunk size 16, audio format 1, channel count 1, sample rate
`r`, byte rate `r * 2`, block align 2, bits per sample 16, data size
exactly `N`; and the `N` sample bytes follow unchanged. -/
theorem pcmToWav_header (pcm : List Nat) (r : Nat)
    (hN : 36 + pcm.length < 4294967296) (hr : r * 2 < 4294967296) :
    (pcmToWav pcm r).length = 44 + pcm.length ∧
    readLE32 (pcmToWav pcm r) 4 = 36 + pcm.length ∧
    readLE32 (pcmToWav pcm r) 16 = 16 ∧
    readLE16 (pcmToWav pcm r) 20 = 1 ∧
    readLE16 (pcmToWav pcm r) 22 = 1 ∧
    readLE32 (pcmToWav pcm r) 24 = r ∧
    readLE32 (pcmToWav pcm r) 28 = r * 2 ∧
    readLE16 (pcmToWav pcm r) 32 = 2 ∧
    readLE16 (pcmToWav pcm r) 34 = 16 ∧
    readLE32 (pcmToWav pcm r) 40 = pcm.length ∧
    (pcmToWav pcm r).drop 44 = pcm := by
  have hR : writeStringBytes "RIFF" = [82, 73, 70, 70] := by decide
  have hW : writeStringBytes "WAVE" = [87, 65, 86, 69] := by decide
  have hF : writeStringBytes "fmt " = [102, 109, 116, 32] := by decide
  have hD : writeStringBytes "data" = [100, 97, 116, 97] := by decide
  have hw : pcmToWav pcm r =
      [82, 73, 70, 70] ++ le32 (36 + pcm.length) ++ [87, 65, 86, 69] ++
      [102, 109, 116, 32] ++ le32 16 ++ le16 1 ++ le16 1 ++ le32 r ++
      le32 (r * 2) ++ le16 2 ++ le16 16 ++ [100, 97, 116, 97] ++
      le32 pcm.length ++ pcm := by
    unfold pcmToWav
    rw [hR, hW, hF, hD]
  rw [hw]
  refine ⟨?_, ?_, ?_, ?_, ?_, ?_, ?_, ?_, ?_, ?_, ?_⟩ <;>
    simp [readLE32, readLE16, le32, le16] <;> omega

/-- C6, witness: `pcmToWav_header` at a two-byte payload and the default
sample rate 24000. -/
theorem pcmToWav_header_witness :
    readLE32 (pcmToWav [7, 9] 24000) 40 = 2 ∧
    (pcmToWav [7, 9] 24000).drop 44 = [7, 9] :=
  ⟨((pcmToWav_header [7, 9] 24000 (by decide) (by decide)).2.2.2.2.2.2.2.2.2.1).trans
     (by decide),
   (pcmToWav_header [7, 9] 24000 (by decide) (by decide)).2.2.2.2.2.2.2.2.2.2⟩

/-- A successful `firstIdx` points at an element satisfying the predicate. -/
lemma firstIdx_some (p : Char → Bool) :
    ∀ (l : List Char) (i : Nat), firstIdx p l = some i →
      ∃ c, l[i]? = some c ∧ p c = true := by
  intro l
  induction l with
  | nil => intro i h; simp [firstIdx] at h
  | cons a as ih =>
      intro i h
      by_cases hpa : p a
      · simp [firstIdx, hpa] at h
        subst h
        exact ⟨a, by simp, hpa⟩
      · simp [firstIdx, hpa] at h
        obtain ⟨j, hj, rfl⟩ := h
        obtain ⟨c, hc, hpc⟩ := ih j hj
        exact ⟨c, by simpa using hc, hpc⟩

/-- A successful `lastIdx` is in range and points at an element satisfying
the predicate. -/
lemma lastIdx_some (p : Char → Bool) (l : List Char) (i : Nat)
    (h : lastIdx p l = some i) :
    i < l.length ∧ ∃ c, l[i]? = some c ∧ p c = true := by
  unfold lastIdx at h
  obtain ⟨j, hj, rfl⟩ : ∃ j, firstIdx p l.reverse = some j ∧ l.length - 1 - j = i := by
    cases hfi : firstIdx p l.reverse with
    | none => rw [hfi] at h; simp at h
    | some j => rw [hfi] at h; simp at h; exact ⟨j, rfl, h⟩
  obtain ⟨c, hc, hpc⟩ := firstIdx_some p l.reverse j hj
  have hjlt : j < l.length := by
    have := (List.getElem?_eq_some_iff.mp hc).1
    simpa using this
  have hrev : l.reverse[j]? = l[l.length - 1 - j]? := List.getElem?_reverse hjlt
  refine ⟨by omega, c, ?_, hpc⟩
  rw [← hrev]
  exact hc

/-- Core slicing fact shared by the normalizer claims: when the first `{`
is at or before the last `}` of the stripped text, `cleanJson` returns the
inclusive slice between them. -/
lemma cleanJson_eq_slice (s : String) (f l : Nat)
    (hf : firstIdx (fun c => c == lbrace) (stripFences (jsTrim s.toList)) = some f)
    (hl : lastIdx (fun c => c == rbrace) (stripFences (jsTrim s.toList)) = some l)
    (hfl : f ≤ l) :
    cleanJson s = String.mk (((stripFences (jsTrim s.toList)).take (l + 1)).drop f) := by
  have hs : s ≠ "" := by
    intro h
    subst h
    exact Option.noConfusion hf
  unfold cleanJson
  rw [if_neg hs]
  simp only []
  rw [hf, hl]
  show String.mk (jsSubstring (stripFences (jsTrim s.toList)) f (l + 1)) =
    String.mk (((stripFences (jsTrim s.toList)).take (l + 1)).drop f)
  unfold jsSubstring
  rw [if_pos (by omega : f ≤ l + 1)]

/-- C3, counterexample: on `"\x7d \x7b"` the last `\x7d` precedes the first `\x7b`;
the claimed inclusive slice from the first `\x7b` to the last `\x7d` is empty,
but `cleanJson` returns `" "` because JavaScript `substring` swaps its
endpoints. -/
theorem cleanJson_slice_cex :
    cleanJson "\x7d \x7b" = " " ∧
    specBraceSlice "\x7d \x7b" = some "" ∧
    some (cleanJson "\x7d \x7b") ≠ specBraceSlice "\x7d \x7b" := by
  refine ⟨rfl, rfl, by decide⟩

/-- C3, amended: for every input whose trimmed, fence-stripped text contains
a `\x7b` and a `\x7d` with the first `\x7b` at or before the last `\x7d`, `cleanJson`
returns exactly the substring from the first `\x7b` to the last `\x7d` inclusive
(always the outermost braces), discarding any prose around the object. -/
theorem cleanJson_slice_between_braces (s : String) (f l : Nat)
    (hf : firstIdx (fun c => c == lbrace) (stripFences (jsTrim s.toList)) = some f)
    (hl : lastIdx (fun c => c == rbrace) (stripFences (jsTrim s.toList)) = some l)
    (hfl : f ≤ l) :
    cleanJson s = String.mk (((stripFences (jsTrim s.toList)).take (l + 1)).drop f) :=
  cleanJson_eq_slice s f l hf hl hfl

/-- C3, witness: the spec's own example — prose before and after the object
is discarded. -/
theorem cleanJson_slice_between_braces_witness :
    cleanJson "Here you go: \x7b\"a\":1\x7d thanks" = "\x7b\"a\":1\x7d" :=
  (cleanJson_slice_between_braces "Here you go: \x7b\"a\":1\x7d thanks" 13 19
      (by decide) (by decide) (by decide)).trans (by decide)

/-- C4, counterexample: `cleanJson` returns `"\x7b\x7d"` only for the empty
input; the brace-free inputs `"hello"` and `" "` are returned as their
trimmed text, not as `"\x7b\x7d"`. -/
theorem cleanJson_no_brace_cex :
    cleanJson "hello" = "hello" ∧ cleanJson " " = "" ∧
    ("hello" : String) ≠ "\x7b\x7d" ∧ ("" : String) ≠ "\x7b\x7d" := by
  refine ⟨?_, ?_, by decide, by decide⟩ <;> rfl

/-- C4, amended: `cleanJson` returns the literal `"\x7b\x7d"` for the empty
input; for every non-empty input whose trimmed, fence-stripped text contains
no `\x7b` and no `\x7d`, it returns that trimmed, fence-stripped text unchanged
(not `"\x7b\x7d"`). -/
theorem cleanJson_without_braces :
    (cleanJson "" = "\x7b\x7d") ∧
    ∀ (s : String), s ≠ "" →
      firstIdx (fun c => c == lbrace) (stripFences (jsTrim s.toList)) = none →
      lastIdx (fun c => c == rbrace) (stripFences (jsTrim s.toList)) = none →
      cleanJson s = String.mk (stripFences (jsTrim s.toList)) := by
  refine ⟨rfl, fun s hs hf hl => ?_⟩
  unfold cleanJson
  rw [if_neg hs]
  simp only []
  rw [hf, hl]

/-- C4, witness: `cleanJson_without_braces` at the brace-free input
`"hello"`. -/
theorem cleanJson_without_braces_witness :
    cleanJson "hello" = String.mk (stripFences (jsTrim "hello".toList)) :=
  cleanJson_without_braces.2 "hello" (by decide) (by decide) (by decide)

/-- `dropWhile` is the identity when the head fails the predicate. -/
lemma dropWhile_eq_self_of_head (p : Char → Bool) (l : List Char) (c : Char)
    (hc : l.head? = some c) (hpc : p c = false) : l.dropWhile p = l := by
  cases l with
  | nil => rfl
  | cons a as =>
      simp only [List.head?_cons, Option.some.injEq] at hc
      subst hc
      simp [List.dropWhile, hpc]

/-- `isPrefixOf` is false when the heads differ. -/
lemma isPrefixOf_eq_false_of_head (l1 l2 : List Char) (a b : Char)
    (h1 : l1.head? = some a) (h2 : l2.head? = some b) (hab : (a == b) = false) :
    l1.isPrefixOf l2 = false := by
  cases l1 with
  | nil => simp at h1
  | cons x xs =>
      cases l2 with
      | nil => rfl
      | cons y ys =>
          simp only [List.head?_cons, Option.some.injEq] at h1 h2
          subst h1
          subst h2
          simp [List.isPrefixOf, hab]

/-- `cleanJson` fixes every string that starts with `\x7b` and ends with `\x7d`:
trimming, fence stripping and brace slicing all leave it unchanged. -/
lemma cleanJson_fixes_braced (m : List Char) (hm : m ≠ [])
    (hHead : m.head? = some lbrace) (hLast : m.getLast? = some rbrace) :
    cleanJson (String.mk m) = String.mk m := by
  have hrevHead : m.reverse.head? = some rbrace := by
    rw [List.head?_reverse]
    exact hLast
  have hs : String.mk m ≠ "" := by
    intro h
    apply hm
    have h2 : (String.mk m).data = ("" : String).data := by rw [h]
    simpa using h2
  have ht1 : m.dropWhile isJsWs = m :=
    dropWhile_eq_self_of_head _ _ _ hHead (by decide)
  have ht2 : m.reverse.dropWhile isJsWs = m.reverse :=
    dropWhile_eq_self_of_head _ _ _ hrevHead (by decide)
  have htrim : jsTrim m = m := by
    unfold jsTrim
    rw [ht1, ht2, List.reverse_reverse]
  have hp1 : fenceJson.isPrefixOf m = false :=
    isPrefixOf_eq_false_of_head _ _ (Char.ofNat 96) lbrace (by decide) hHead (by decide)
  have hp2 : fence.isPrefixOf m = false :=
    isPrefixOf_eq_false_of_head _ _ (Char.ofNat 96) lbrace (by decide) hHead (by decide)
  have hp3 : fence.isSuffixOf m = false := by
    show fence.reverse.isPrefixOf m.reverse = false
    exact isPrefixOf_eq_false_of_head _ _ (Char.ofNat 96) rbrace (by decide) hrevHead
      (by decide)
  have hstrip : stripFences m = m := by
    unfold stripFences
    rw [hp1]
    simp only [Bool.false_eq_true, if_false]
    rw [hp2]
    simp only [Bool.false_eq_true, if_false]
    rw [hp3]
    simp only [Bool.false_eq_true, if_false]
  obtain ⟨a, as, rfl⟩ : ∃ a as, m = a :: as := by
    cases m with
    | nil => exact absurd rfl hm
    | cons a as => exact ⟨a, as, rfl⟩
  have ha : a = lbrace := by simpa using hHead
  subst ha
  have hfi : firstIdx (fun c => c == lbrace) (lbrace :: as) = some 0 := by
    simp [firstIdx]
  obtain ⟨tl, hrev⟩ : ∃ tl, (lbrace :: as).reverse = rbrace :: tl := by
    cases hr : (lbrace :: as).reverse with
    | nil =>
        rw [hr] at hrevHead
        simp at hrevHead
    | cons x tl =>
        rw [hr] at hrevHead
        simp only [List.head?_cons, Option.some.injEq] at hrevHead
        subst hrevHead
        exact ⟨tl, rfl⟩
  have hli : lastIdx (fun c => c == rbrace) (lbrace :: as) =
      some ((lbrace :: as).length - 1) := by
    unfold lastIdx
    rw [hrev]
    simp [firstIdx]
  unfold cleanJson
  rw [if_neg hs]
  simp only []
  have htl : (String.mk (lbrace :: as)).toList = lbrace :: as := rfl
  rw [htl, htrim, hstrip, hfi, hli]
  show String.mk (jsSubstring (lbrace :: as) 0 ((lbrace :: as).length - 1 + 1)) =
    String.mk (lbrace :: as)
  congr 1
  unfold jsSubstring
  rw [if_pos (Nat.zero_le _)]
  have hlen : (lbrace :: as).length - 1 + 1 = (lbrace :: as).length := by simp
  rw [hlen, List.take_length, List.drop_zero]

/-- C5, counterexample: `cleanJson` is not idempotent on every input — on
`" "` it returns `""`, which a second application turns into `"\x7b\x7d"`. -/
theorem cleanJson_not_idempotent_cex :
    cleanJson " " = "" ∧ cleanJson (cleanJson " ") = "\x7b\x7d" ∧
    cleanJson (cleanJson " ") ≠ cleanJson " " := by
  refine ⟨rfl, rfl, by decide⟩

/-- C5, amended: `cleanJson` is idempotent on already-clean JSON and, more
generally, on every input whose trimmed, fence-stripped text contains a `\x7b`
and a `\x7d` with the first `\x7b` at or before the last `\x7d` (the slice then
starts with `\x7b` and ends with `\x7d`, which `cleanJson` fixes); full
idempotence on all inputs fails. -/
theorem cleanJson_idempotent_on_braced (s : String) (f l : Nat)
    (hf : firstIdx (fun c => c == lbrace) (stripFences (jsTrim s.toList)) = some f)
    (hl : lastIdx (fun c => c == rbrace) (stripFences (jsTrim s.toList)) = some l)
    (hfl : f ≤ l) :
    cleanJson (cleanJson s) = cleanJson s := by
  have h1 := cleanJson_eq_slice s f l hf hl hfl
  obtain ⟨cf, hcf, hpcf⟩ := firstIdx_some _ _ _ hf
  have hcf2 : (stripFences (jsTrim s.toList))[f]? = some lbrace := by
    have he : cf = lbrace := by simpa using hpcf
    rw [← he]
    exact hcf
  obtain ⟨hllt, cl, hcl, hpcl⟩ := lastIdx_some _ _ _ hl
  have hcl2 : (stripFences (jsTrim s.toList))[l]? = some rbrace := by
    have he : cl = rbrace := by simpa using hpcl
    rw [← he]
    exact hcl
  have hrlen : (((stripFences (jsTrim s.toList)).take (l + 1)).drop f).length =
      l + 1 - f := by
    rw [List.length_drop, List.length_take]
    omega
  have hrne : ((stripFences (jsTrim s.toList)).take (l + 1)).drop f ≠ [] := by
    intro h
    have h2 := congrArg List.length h
    rw [hrlen] at h2
    simp at h2
    omega
  have hrhead : (((stripFences (jsTrim s.toList)).take (l + 1)).drop f).head? =
      some lbrace := by
    rw [List.head?_drop, List.getElem?_take_of_lt (by omega), hcf2]
  have hrlast : (((stripFences (jsTrim s.toList)).take (l + 1)).drop f).getLast? =
      some rbrace := by
    rw [List.getLast?_eq_getElem?, hrlen, List.getElem?_drop,
        List.getElem?_take_of_lt (by omega)]
    have he : f + (l + 1 - f - 1) = l := by omega
    rw [he, hcl2]
  rw [h1]
  exact cleanJson_fixes_braced _ hrne hrhead hrlast

/-- C5, witness: the spec's own example — `cleanJson` is idempotent on the
already-clean JSON object. -/
theorem cleanJson_idempotent_on_braced_witness :
    cleanJson (cleanJson "\x7b\"a\":1\x7d") = cleanJson "\x7b\"a\":1\x7d" :=
  cleanJson_idempotent_on_braced "\x7b\"a\":1\x7d" 0 6 (by decide) (by decide) (by decide)

end Axium
